import Mathlib

/-!
Verification of the EMDAT eye-tracking feature-generation fork against its
natural-language specification.

The development shallowly embeds the Python sources:

* `src/EMDAT_eyetracker/TobiiV2Recording.py` — the TobiiV2 parser, in
  particular `read_saccade_data` (the saccade reconstructor state machine)
  and `read_all_data` (sample parsing and validity classification);
* `src/BasicParticipant.py` — `BasicParticipant.__init__` (partitioning,
  whole-recording scene, scene list) and `read_participants_Basic`
  (the batch entry point).

Machine reals of the source (floating point) are modelled by `Rat`;
the `csv.DictReader` rows are modelled by structures whose `Option` fields
stand for cells that may be empty (Python truthiness on the raw string).
Exceptions raised by the Python code are modelled by `Except String`.
-/

namespace EMDAT

/-! ## Saccade reconstruction: `TobiiV2Recording.read_saccade_data`

A row of the tab-separated data file, as read by `csv.DictReader`.
Cells that the source tests for truthiness before casting are `Option Int`
(`none` models the empty string); cells that the source always casts are
carried already cast. -/

structure SacRow where
  mediaName : String
  eyeTrackerTimestamp : String
  gazeEventType : String
  saccadeIndex : Int
  recordingTimestamp : Int
  validityLeft : Int
  validityRight : Int
  gazePointX : Option Int
  gazePointY : Option Int
  fixationPointX : Option Int
  fixationPointY : Option Int
deriving Repr, DecidableEq

/-- The `Saccade` record built at `TobiiV2Recording.py:207-218`.  The
floating-point fields `saccadedistance` and `saccadespeed` (computed with a
square root in `EMDAT_core.Recording.get_saccade_distance`, outside `src/`)
are not modelled numerically; the window of points they are computed from is
kept in `saccadevect`, and the division by zero in
`speed = float(dist) / cast_int(saccade_duration)` is modelled exactly
(see `sacBranch`). -/
structure Saccade where
  saccadeindex : Int
  timestamp : Int
  saccadeduration : Int
  saccadestartpointx : Int
  saccadestartpointy : Int
  saccadeendpointx : Int
  saccadeendpointy : Int
  saccadeacceleration : Int
  saccadequality : Rat
  saccadevect : List (Int × Int × Int)
deriving Repr, DecidableEq

/-- The loop state of `read_saccade_data` (`TobiiV2Recording.py:132-145`):
the accumulator `all_saccade` plus the local variables mutated by the loop. -/
structure SacState where
  all_saccade : List Saccade
  in_saccade : Bool
  in_fixation : Bool
  last_gaze_coord : Int × Int × Int
  saccade_vect : List (Int × Int × Int)
  current_index : Int
  nb_invalid_temp : Nat
  nb_valid_sample : Nat
  nb_sample : Nat
  last_valid : Bool
deriving Repr, DecidableEq

/-- Initial loop state (`TobiiV2Recording.py:132-145`). -/
def sacInit : SacState :=
  { all_saccade := []
    in_saccade := false
    in_fixation := false
    last_gaze_coord := (0, 0, 0)
    saccade_vect := []
    current_index := 0
    nb_invalid_temp := 0
    nb_valid_sample := 0
    nb_sample := 0
    last_valid := false }

/-- A row is processed at all (`TobiiV2Recording.py:149-151`): it must be on
the designated media channel and have a nonempty eye-tracker timestamp. -/
def rowProcessed (row : SacRow) : Bool :=
  row.mediaName == "Screen Recordings (1)" && row.eyeTrackerTimestamp != ""

/-- The gaze-validity test repeated at `TobiiV2Recording.py:164-166`,
`186-188` and `224-226`: at least one eye validity code below 2, and both
gaze-point cells nonempty. -/
def rowGazeValid (row : SacRow) : Bool :=
  (row.validityLeft < 2 || row.validityRight < 2)
    && row.gazePointX.isSome && row.gazePointY.isSome

/-- Both fixation-point cells nonempty (the fallback test at
`TobiiV2Recording.py:193`). -/
def rowFixPoint (row : SacRow) : Bool :=
  row.fixationPointX.isSome && row.fixationPointY.isSome

/-- The gaze coordinate triple of a row. -/
def rowGazeCoord (row : SacRow) : Int × Int × Int :=
  (row.recordingTimestamp, row.gazePointX.getD 0, row.gazePointY.getD 0)

/-- The fixation-point coordinate triple of a row. -/
def rowFixCoord (row : SacRow) : Int × Int × Int :=
  (row.recordingTimestamp, row.fixationPointX.getD 0, row.fixationPointY.getD 0)

/-- Saccade window after the closing boundary row has been handled
(`TobiiV2Recording.py:186-197`): append the boundary gaze coordinate if
valid, else fall back to the fixation-point estimate, else append nothing. -/
def closeVect (st : SacState) (row : SacRow) : List (Int × Int × Int) :=
  if rowGazeValid row then st.saccade_vect ++ [rowGazeCoord row]
  else if rowFixPoint row then st.saccade_vect ++ [rowFixCoord row]
  else st.saccade_vect

/-- Valid-sample count after the closing boundary row has been handled
(`TobiiV2Recording.py:186-197`). -/
def closeValidCount (st : SacState) (row : SacRow) : Nat :=
  if rowGazeValid row || rowFixPoint row then st.nb_valid_sample + 1
  else st.nb_valid_sample

/-- The quality ratio `rate_valid_sample = float(nb_valid_sample) / nb_sample`
computed when a window is closed (`TobiiV2Recording.py:200`), after the
boundary sample has been counted (`nb_sample += 1` at line 198). -/
def closeRate (st : SacState) (row : SacRow) : Rat :=
  mkRat (closeValidCount st row) (st.nb_sample + 1)

/-- One iteration of the `read_saccade_data` loop body for a processed row,
without the trailing `last_gaze_coord` update (`TobiiV2Recording.py:153-239`).
Errors model the Python exceptions: `IndexError` for `saccade_vect[0]` on an
empty window and `ZeroDivisionError` for `speed = float(dist)/0`. -/
def sacBranch (threshold : Rat) (st : SacState) (row : SacRow) :
    Except String SacState :=
  if st.in_fixation then
    if row.gazeEventType == "Fixation" then
      .ok { st with nb_invalid_temp := 0 }
    else if row.gazeEventType == "Saccade" then
      let vect0 := [st.last_gaze_coord]
      let vect1 := if rowGazeValid row then vect0 ++ [rowGazeCoord row] else vect0
      let nv1 : Nat := if rowGazeValid row then 1 else 0
      let nv2 : Nat := if st.last_valid then nv1 + 1 else nv1
      .ok { st with
            in_fixation := false
            in_saccade := true
            current_index := row.saccadeIndex
            saccade_vect := vect1
            nb_valid_sample := nv2
            nb_sample := 2 + st.nb_invalid_temp
            nb_invalid_temp := 0 }
    else
      .ok { st with nb_invalid_temp := st.nb_invalid_temp + 1 }
  else if st.in_saccade then
    if row.gazeEventType == "Fixation" then
      let vect1 := closeVect st row
      let nv1 := closeValidCount st row
      let ns1 := st.nb_sample + 1
      if closeRate st row ≥ threshold then
        match vect1 with
        | [] => .error "IndexError"
        | v0 :: vrest =>
          let dur := row.recordingTimestamp - v0.1
          if dur = 0 then .error "ZeroDivisionError"
          else
            let vlast := List.getLastD (v0 :: vrest) (0, 0, 0)
            let s : Saccade :=
              { saccadeindex := st.current_index
                timestamp := v0.1
                saccadeduration := dur
                saccadestartpointx := v0.2.1
                saccadestartpointy := v0.2.2
                saccadeendpointx := vlast.2.1
                saccadeendpointy := vlast.2.2
                saccadeacceleration := -1
                saccadequality := closeRate st row
                saccadevect := vect1 }
            .ok { st with
                  in_fixation := true
                  in_saccade := false
                  saccade_vect := vect1
                  nb_valid_sample := 0
                  nb_sample := 0
                  nb_invalid_temp := 0
                  all_saccade := st.all_saccade ++ [s] }
      else
        .ok { st with
              in_fixation := true
              in_saccade := false
              saccade_vect := vect1
              nb_valid_sample := nv1
              nb_sample := ns1
              nb_invalid_temp := 0 }
    else if row.gazeEventType == "Saccade" then
      let vect1 := if rowGazeValid row then st.saccade_vect ++ [rowGazeCoord row]
                   else st.saccade_vect
      let nv1 := if rowGazeValid row then st.nb_valid_sample + 1 else st.nb_valid_sample
      .ok { st with
            saccade_vect := vect1
            nb_valid_sample := nv1
            nb_sample := st.nb_sample + 1
            nb_invalid_temp := 0 }
    else
      .ok { st with nb_sample := st.nb_sample + 1, nb_invalid_temp := 0 }
  else
    if row.gazeEventType == "Fixation" then
      .ok { st with in_fixation := true }
    else
      .ok st

/-- The trailing update of `last_gaze_coord` and `last_valid` executed for
every processed row (`TobiiV2Recording.py:240-251`). -/
def updateLastGaze (st : SacState) (row : SacRow) : SacState :=
  if row.gazePointX.isSome && row.gazePointY.isSome then
    { st with
      last_gaze_coord := rowGazeCoord row
      last_valid := row.validityLeft < 2 || row.validityRight < 2 }
  else if row.gazeEventType == "Fixation" && rowFixPoint row then
    { st with last_gaze_coord := rowFixCoord row, last_valid := true }
  else
    st

/-- One full iteration of the `read_saccade_data` loop: skipped rows
(`continue` at `TobiiV2Recording.py:151`) leave the state unchanged. -/
def sacStep (threshold : Rat) (st : SacState) (row : SacRow) :
    Except String SacState :=
  if rowProcessed row then
    (sacBranch threshold st row).map (fun st1 => updateLastGaze st1 row)
  else
    .ok st

/-- The `for row in reader` loop of `read_saccade_data`. -/
def readSaccadeLoop (threshold : Rat) : SacState → List SacRow →
    Except String SacState
  | st, [] => .ok st
  | st, row :: rest =>
    match sacStep threshold st row with
    | .error e => .error e
    | .ok st1 => readSaccadeLoop threshold st1 rest

/-- `TobiiV2Recording.read_saccade_data` (`TobiiV2Recording.py:122-253`),
parametrised by the configured quality threshold
`params.VALID_SAMPLES_PROP_SACCADE` (the module `params.py` is not under
`src/`). -/
def read_saccade_data (threshold : Rat) (rows : List SacRow) :
    Except String (List Saccade) :=
  (readSaccadeLoop threshold sacInit rows).map (fun st => st.all_saccade)

/-! ## Sample parsing: `TobiiV2Recording.read_all_data` -/

/-- A row of the All-Data sample file as consumed by `read_all_data`
(`TobiiV2Recording.py:37-55`).  The per-eye pupil, distance and validity
columns are present in the file; the current source reads none of them
(the reads are commented out at lines 38-43 and 50-52), but they are kept
here so that the claims about them can be stated. -/
structure AllDataRow where
  recordingTimestamp : Rat
  avg_x : Rat
  pupilLeft : Option Rat
  pupilRight : Option Rat
  distanceLeft : Option Rat
  distanceRight : Option Rat
  validityLeft : Int
  validityRight : Int
deriving Repr, DecidableEq

/-- Python `int(float(s))`: truncation toward zero. -/
def pyIntOfFloat (q : Rat) : Int :=
  if 0 ≤ q then q.floor else q.ceil

/-- Modelled from the spec: `EMDAT_core.utils.get_pupil_size` is not under
`src/`.  Spec 4.1: "pupil size = average of valid left/right values
(unavailable eye excluded)"; spec 5.5/7: numeric results over no data use
the sentinel -1. -/
def get_pupil_size : Option Rat → Option Rat → Rat
  | none, none => -1
  | none, some r => r
  | some l, none => l
  | some l, some r => (l + r) / 2

/-- Modelled from the spec: `EMDAT_core.utils.get_pupil_velocity` is not
under `src/`.  Spec 4.1: "pupil velocity = |Δpupil size| / Δtimestamp
between consecutive valid samples, undefined (null) at stream start or
across invalid gaps" — undefined is the sentinel -1. -/
def get_pupil_velocity (lastLeft lastRight left right : Option Rat)
    (dt : Int) : Rat :=
  if (lastLeft.isSome || lastRight.isSome) && (left.isSome || right.isSome)
  then |get_pupil_size left right - get_pupil_size lastLeft lastRight| / (dt : Rat)
  else -1

/-- Modelled from the spec: `EMDAT_core.utils.get_distance` is not under
`src/`.  Same shared derivation as pupil size (spec 4.1): average of the
available per-eye distances, sentinel -1 when both are unavailable. -/
def get_distance : Option Rat → Option Rat → Rat
  | none, none => -1
  | none, some r => r
  | some l, none => l
  | some l, some r => (l + r) / 2

/-- The `Datapoint` dictionary built at `TobiiV2Recording.py:45-55`. -/
structure Datapoint where
  timestamp : Int
  pupilsize : Rat
  pupilvelocity : Rat
  distance : Rat
  is_valid : Bool
  is_valid_blink : Option Bool
  stimuliname : Option String
  fixationindex : Option Int
  gazepointxleft : Rat
deriving Repr, DecidableEq

/-- One iteration of the `read_all_data` loop (`TobiiV2Recording.py:37-59`):
the per-eye pupil and distance variables are hardcoded to `None`
(lines 40-43) and the validity flag to `True` (line 50); none of the
per-eye columns of the row is consulted. -/
def read_all_data_row (last_pupil_left last_pupil_right : Option Rat)
    (last_time : Int) (row : AllDataRow) : Datapoint :=
  let pupil_left : Option Rat := none
  let pupil_right : Option Rat := none
  let distance_left : Option Rat := none
  let distance_right : Option Rat := none
  let timestamp := pyIntOfFloat row.recordingTimestamp
  { timestamp := timestamp
    pupilsize := get_pupil_size pupil_left pupil_right
    pupilvelocity := get_pupil_velocity last_pupil_left last_pupil_right
      pupil_left pupil_right (timestamp - last_time)
    distance := get_distance distance_left distance_right
    is_valid := true
    is_valid_blink := none
    stimuliname := none
    fixationindex := none
    gazepointxleft := row.avg_x }

/-- The `for row in reader` loop of `read_all_data`, threading
`last_pupil_left`, `last_pupil_right` and `last_time`
(`TobiiV2Recording.py:33-59`).  Note that the loop stores the hardcoded
`None` pupils back into the `last_*` variables (lines 57-58). -/
def readAllDataLoop (last_pupil_left last_pupil_right : Option Rat)
    (last_time : Int) : List AllDataRow → List Datapoint
  | [] => []
  | row :: rest =>
    let dp := read_all_data_row last_pupil_left last_pupil_right last_time row
    dp :: readAllDataLoop none none dp.timestamp rest

/-- `TobiiV2Recording.read_all_data` (`TobiiV2Recording.py:19-61`). -/
def read_all_data (rows : List AllDataRow) : List Datapoint :=
  readAllDataLoop none none (-1) rows

/-! ## `BasicParticipant.__init__` (`BasicParticipant.py:32-158`) -/

/-- A segment produced by `rec.process_rec` (`EMDAT_core`, outside `src/`):
only the fields `BasicParticipant.__init__` touches are modelled, plus a
payload distinguishing segments with equal start times so that sort
stability can be stated. -/
structure Seg where
  name : String
  start : Int
  endTime : Int
  payload : Nat
deriving Repr, DecidableEq

/-- A scene as used by `BasicParticipant.__init__`: the `Scene` constructor
call at `BasicParticipant.py:145-148` is modelled by its name and its
`Segments=` argument. -/
structure Scene where
  name : String
  segments : List Seg
deriving Repr, DecidableEq

/-- The comparison key of `sorted(self.segments, key=lambda x: x.start)`
(`BasicParticipant.py:142`). -/
def segLE (a b : Seg) : Bool := a.start ≤ b.start

/-- The participant state assembled by `BasicParticipant.__init__`
(`BasicParticipant.py:97-149`): the feature entry `numofsegments`, the
scene list after the whole-recording scene is inserted at position 0, the
whole-recording scene itself, and the segment list. -/
structure BPInit where
  numofsegments : Nat
  features_numofsegments : Nat
  scenes : List Scene
  whole_scene : Scene
  segments : List Seg
deriving Repr, DecidableEq

/-- `BasicParticipant.__init__` (`BasicParticipant.py:32-158`), parametrised
by the results of the two `EMDAT_core` calls that are outside `src/`:
`partition(segfile)` (a scene list and a segment count) and
`rec.process_rec(...)` (the segment and scene lists).  The tracker dispatch
(`BasicParticipant.py:103-113`), the zero-segment check (lines 119-122),
the stable sort (line 142, Python `sorted` is stable), the whole-scene
construction (lines 145-148) and the `insert(0, ...)` (line 149) are
modelled; file printing, AOI reading and `clean_memory` are effect-free for
the claims and are omitted. -/
def basicParticipant_init (pid : String) (eyetrackertype : String)
    (partition_result : List String × Nat)
    (process_result : List Seg × List Scene) : Except String BPInit :=
  if eyetrackertype = "TobiiV2" ∨ eyetrackertype = "TobiiV3"
      ∨ eyetrackertype = "SMI" then
    let numofsegments := partition_result.2
    if numofsegments = 0 then .error "No segments found."
    else
      let segments := process_result.1
      let scenes := process_result.2
      let all_segs := segments.mergeSort segLE
      let whole_scene : Scene := { name := pid ++ "_allsc", segments := all_segs }
      .ok { numofsegments := numofsegments
            features_numofsegments := numofsegments
            scenes := whole_scene :: scenes
            whole_scene := whole_scene
            segments := segments }
  else .error "Unknown eye tracker type."

/-! ## Batch entry point: `read_participants_Basic`
(`BasicParticipant.py:161-246`) -/

/-- A constructed participant as observed by the batch loop: the arguments
`read_participants_Basic` passes to the `BasicParticipant` constructor at
`BasicParticipant.py:237-240` that the claims are about. -/
structure BP where
  recName : String
  pid : Nat
  log_time_offset : Int
  rpsdata : Option Rat
deriving Repr, DecidableEq

/-- Modelled from the spec: the unit of the `log_time_offset` argument of
`EMDAT_core.Participant` (not under `src/`).  The source comment at
`BasicParticipant.py:202` calls the default offset `1` "1 sec" and the spec
states the default offset as 1000 ms, fixing the unit as seconds; this
converts an offset to milliseconds. -/
def log_time_offset_ms (offset : Int) : Int := 1000 * offset

/-- The sample-file path whose existence is checked at
`BasicParticipant.py:236`, per tracker type (lines 215-234; `os.path.join`
with a forward slash). -/
def batch_allfile (eyetrackertype datadir rec : String) : String :=
  if eyetrackertype = "TobiiV2" then datadir ++ "/" ++ rec ++ "-All-Data.tsv"
  else if eyetrackertype = "TobiiV3" then datadir ++ "/" ++ rec ++ "-All-Data.tsv"
  else datadir ++ "/SMI_Sample_" ++ rec ++ "_Samples.txt"

/-- The log line written for a missing sample file
(`BasicParticipant.py:243`). -/
def missing_file_log (pid : Nat) : String :=
  "Error reading participant files for: " ++ toString pid ++ " FILE NOT FOUND\n"

/-- The batch result: the `participants` list and the lines passed to
`log_to_file` (`BasicParticipant.py:201, 241, 243`). -/
structure Batch where
  participants : List BP
  log : List String
deriving Repr, DecidableEq

/-- The `for rec, pid, offset in zip(...)` loop of `read_participants_Basic`
(`BasicParticipant.py:208-246`).  `fileExists` models `os.path.exists`;
`construct` models the `BasicParticipant` constructor call (which may raise,
`Except.error`); there is no exception handler around it in the source, so
an error propagates out of the loop.  `rpsdata` is total over pids,
modelling the successful `rpsdata[pid]` lookup (line 211). -/
def rpbLoop (eyetrackertype : String) (fileExists : String → Bool)
    (construct : String → Nat → Int → Option Rat → Except String BP)
    (datadir : String) (rpsdata : Option (Nat → Rat)) :
    List (String × Nat × Int) → Except String Batch
  | [] => .ok { participants := [], log := [] }
  | (rec, pid, offset) :: rest =>
    let currpsdata := rpsdata.map (fun f => f pid)
    let allfile := batch_allfile eyetrackertype datadir rec
    if fileExists allfile then
      match construct rec pid offset currpsdata with
      | .error e => .error e
      | .ok p =>
        (rpbLoop eyetrackertype fileExists construct datadir rpsdata rest).map
          (fun b => { participants := p :: b.participants, log := b.log })
    else
      (rpbLoop eyetrackertype fileExists construct datadir rpsdata rest).map
        (fun b => { participants := b.participants
                    log := missing_file_log pid :: b.log })

/-- `read_participants_Basic` (`BasicParticipant.py:161-246`), parametrised
by `params.EYETRACKERTYPE`, the filesystem (`fileExists`), the
`BasicParticipant` constructor and the parsed rest-pupil-size table.  With
`log_time_offsets = None` the default list `[1] * len(pids)` is used
(line 202-203).  Python `zip` truncates to the shortest list, as does the
nested `List.zip`. -/
def read_participants_Basic (eyetrackertype : String)
    (fileExists : String → Bool)
    (construct : String → Nat → Int → Option Rat → Except String BP)
    (datadir : String) (user_list : List String) (pids : List Nat)
    (log_time_offsets : Option (List Int)) (rpsdata : Option (Nat → Rat)) :
    Except String Batch :=
  let offsets := log_time_offsets.getD (List.replicate pids.length 1)
  rpbLoop eyetrackertype fileExists construct datadir rpsdata
    (user_list.zip (pids.zip offsets))

/-- The constructor argument that records what it was called with, used to
observe the values `read_participants_Basic` passes to `BasicParticipant`. -/
def recordingConstruct : String → Nat → Int → Option Rat → Except String BP :=
  fun rec pid offset rps => .ok { recName := rec, pid := pid,
                                  log_time_offset := offset, rpsdata := rps }

/-! ## Concrete inputs used by counterexamples and witnesses -/

/-- A row of the saccade data file on the designated media channel. -/
def mkSacRow (ge : String) (ts k vL vR : Int) (gx gy fx fy : Option Int) :
    SacRow :=
  { mediaName := "Screen Recordings (1)", eyeTrackerTimestamp := "1"
    gazeEventType := ge, saccadeIndex := k, recordingTimestamp := ts
    validityLeft := vL, validityRight := vR
    gazePointX := gx, gazePointY := gy
    fixationPointX := fx, fixationPointY := fy }

/-- The stream Fixation, Fixation, Saccade, Saccade, Fixation with all-valid
eyes and gaze coordinates, timestamps 0, 10, 20, 30, 40. -/
def c1rows : List SacRow :=
  [ mkSacRow "Fixation" 0 0 0 0 (some 100) (some 110) none none
  , mkSacRow "Fixation" 10 0 0 0 (some 101) (some 111) none none
  , mkSacRow "Saccade" 20 7 0 0 (some 102) (some 112) none none
  , mkSacRow "Saccade" 30 7 0 0 (some 103) (some 113) none none
  , mkSacRow "Fixation" 40 0 0 0 (some 104) (some 114) none none ]

/-- An all-valid stream whose three rows share one timestamp, so the emitted
window has duration 0. -/
def c10rows : List SacRow :=
  [ mkSacRow "Fixation" 5 0 0 0 (some 1) (some 2) none none
  , mkSacRow "Saccade" 5 3 0 0 (some 1) (some 2) none none
  , mkSacRow "Fixation" 5 0 0 0 (some 1) (some 2) none none ]

/-- A saccade-window state with 1 valid sample of 3 counted so far; closing
it on an invalid boundary row gives 1 valid of 4. -/
def c4state : SacState :=
  { all_saccade := []
    in_saccade := true
    in_fixation := false
    last_gaze_coord := (0, 10, 20)
    saccade_vect := [(0, 10, 20)]
    current_index := 3
    nb_invalid_temp := 0
    nb_valid_sample := 1
    nb_sample := 3
    last_valid := true }

/-- A closing boundary row with both eyes invalid and no usable coordinate. -/
def c4row : SacRow := mkSacRow "Fixation" 100 0 4 4 none none none none

/-- An All-Data row whose two validity codes both fail the threshold and
whose per-eye pupil cells are 2 and 4. -/
def c3row : AllDataRow :=
  { recordingTimestamp := 0, avg_x := 50
    pupilLeft := some 2, pupilRight := some 4
    distanceLeft := none, distanceRight := none
    validityLeft := 4, validityRight := 4 }

/-- A `BasicParticipant` constructor that fails on recording "61" and
succeeds on every other recording. -/
def c5construct : String → Nat → Int → Option Rat → Except String BP :=
  fun rec pid offset _ =>
    if rec = "61" then .error "Exception: parse error"
    else .ok { recName := rec, pid := pid, log_time_offset := offset,
               rpsdata := none }

/-- A single segment for the C7 witness. -/
def c7seg : Seg := { name := "A", start := 5, endTime := 9, payload := 0 }

/-- A scene returned by the parser for the C7 witness. -/
def c7scene : Scene := { name := "sc", segments := [] }

/-- The participant state expected from the C7 witness input. -/
def c7expected : BPInit :=
  { numofsegments := 1
    features_numofsegments := 1
    scenes := [{ name := "P1_allsc", segments := [c7seg] }, c7scene]
    whole_scene := { name := "P1_allsc", segments := [c7seg] }
    segments := [c7seg] }

/-- A minimal all-valid stream Fixation, Saccade, Fixation with timestamps
0, 5, 10. -/
def c9rows : List SacRow :=
  [ mkSacRow "Fixation" 0 0 0 0 (some 1) (some 2) none none
  , mkSacRow "Saccade" 5 3 0 0 (some 3) (some 4) none none
  , mkSacRow "Fixation" 10 0 0 0 (some 5) (some 6) none none ]

/-- The saccade that `read_saccade_data` emits from `c9rows`. -/
def c9sac : Saccade :=
  { saccadeindex := 3, timestamp := 0, saccadeduration := 10
    saccadestartpointx := 1, saccadestartpointy := 2
    saccadeendpointx := 5, saccadeendpointy := 6
    saccadeacceleration := -1, saccadequality := 1
    saccadevect := [(0, 1, 2), (5, 3, 4), (10, 5, 6)] }

/-- The Datapoint that `read_all_data` produces from `c3row`. -/
def c3dp : Datapoint :=
  { timestamp := 0, pupilsize := -1, pupilvelocity := -1, distance := -1
    is_valid := true, is_valid_blink := none, stimuliname := none
    fixationindex := none, gazepointxleft := 50 }

/-- The expected batch output for the C2 witness. -/
def c2batch : Batch :=
  { participants := [{ recName := "61", pid := 61, log_time_offset := 1,
                       rpsdata := none }]
    log := [] }

/-- The single participant of `c2batch`. -/
def c2bp : BP :=
  { recName := "61", pid := 61, log_time_offset := 1, rpsdata := none }

/-! ## Claim C6: zero segments abort the participant construction -/

/-- C6: whenever the partition of the segment-definition file yields zero
segments, `BasicParticipant.__init__` raises ("No segments found.") instead
of proceeding, for any recognised tracker type and any parser output. -/
theorem C6_zero_segments_raises (pid ett : String) (scenelist : List String)
    (proc : List Seg × List Scene)
    (h : ett = "TobiiV2" ∨ ett = "TobiiV3" ∨ ett = "SMI") :
    basicParticipant_init pid ett (scenelist, 0) proc
      = .error "No segments found." := by
  unfold basicParticipant_init
  rw [if_pos h]
  rfl

/-- Witness for C6 at a concrete input. -/
theorem C6_zero_segments_raises_witness :
    ("TobiiV2" = "TobiiV2" ∨ "TobiiV2" = "TobiiV3" ∨ "TobiiV2" = "SMI")
    ∧ basicParticipant_init "P1" "TobiiV2" (["sc1"], 0) ([], [])
        = .error "No segments found." :=
  ⟨Or.inl rfl,
   C6_zero_segments_raises "P1" "TobiiV2" ["sc1"] ([], []) (Or.inl rfl)⟩

/-! ## Claim C10: unguarded division by the saccade duration -/

/-- C10: the speed computation `float(dist) / cast_int(saccade_duration)`
has no zero guard.  On a stream whose closing boundary sample carries the
same timestamp as the window start, and which passes the quality threshold
(quality 1 against threshold 1/2), the parse fails with a division by
zero. -/
theorem C10_speed_division_by_zero :
    read_saccade_data (mkRat 1 2) c10rows = .error "ZeroDivisionError" := by
  rfl

/-! ## Claim C1: the synthetic five-sample stream -/

/-- C1 as stated is false on the code: on the all-valid stream Fixation,
Fixation, Saccade, Saccade, Fixation with timestamps 0, 10, 20, 30, 40 the
single emitted saccade has duration 30 = 40 - 10 (closing boundary
timestamp minus the timestamp of the last pre-saccade fixation sample), not
30 - 20 = 10 (last Saccade-classified sample minus first Saccade-classified
sample) as the claim requires. -/
theorem C1_counterexample :
    (read_saccade_data (mkRat 3 5) c1rows).map (fun l => l.map Saccade.saccadeduration)
      = .ok [40 - 10]
    ∧ (40 - 10 : Int) ≠ 30 - 20 := by
  exact ⟨by rfl, by decide⟩

/-! ## Claim C5: a failing participant construction aborts the batch -/

/-- C5 as stated is false on the code: `read_participants_Basic` has no
exception handler around the `BasicParticipant` call, so when construction
of the first recording fails the error propagates and the batch produces
nothing -- it does not continue with recording "62". -/
theorem C5_counterexample :
    read_participants_Basic "TobiiV2" (fun _ => true) c5construct "data"
      ["61", "62"] [61, 62] none none = .error "Exception: parse error"
    ∧ read_participants_Basic "TobiiV2" (fun _ => true) c5construct "data"
        ["61", "62"] [61, 62] none none
      ≠ .ok { participants := [{ recName := "62", pid := 62,
                                 log_time_offset := 1, rpsdata := none }]
              log := [] } := by
  refine ⟨rfl, ?_⟩
  intro h
  exact Except.noConfusion (Eq.trans (Eq.symm (rfl :
    read_participants_Basic "TobiiV2" (fun _ => true) c5construct "data"
      ["61", "62"] [61, 62] none none = .error "Exception: parse error")) h)

/-- C5 amended: if constructing one participant fails, the error propagates
out of `read_participants_Basic` and aborts the whole batch; no remaining
participant is constructed.  (Only a missing sample file is logged and
skipped.) -/
theorem C5_amended_error_propagates (ett : String) (fe : String → Bool)
    (construct : String → Nat → Int → Option Rat → Except String BP)
    (datadir rec : String) (pid : Nat) (off : Int)
    (rest : List String) (pids : List Nat) (offs : List Int)
    (rps : Option (Nat → Rat)) (e : String)
    (hex : fe (batch_allfile ett datadir rec) = true)
    (hc : construct rec pid off (rps.map (fun f => f pid)) = .error e) :
    read_participants_Basic ett fe construct datadir (rec :: rest)
      (pid :: pids) (some (off :: offs)) rps = .error e := by
  simp [read_participants_Basic, rpbLoop, hex, hc]

/-- Witness for the amended C5 at a concrete input. -/
theorem C5_amended_error_propagates_witness :
    ((fun _ => true) : String → Bool) (batch_allfile "TobiiV2" "data" "61") = true
    ∧ c5construct "61" 61 1 ((none : Option (Nat → Rat)).map (fun f => f 61))
        = .error "Exception: parse error"
    ∧ read_participants_Basic "TobiiV2" (fun _ => true) c5construct "data"
        ["61", "62"] [61, 62] (some [1, 1]) none
        = .error "Exception: parse error" :=
  ⟨rfl, rfl,
   C5_amended_error_propagates "TobiiV2" (fun _ => true) c5construct "data"
     "61" 61 1 ["62"] [62] [1] none "Exception: parse error" rfl rfl⟩

/-! ## Claim C8: a missing sample file is logged and skipped -/

/-- When every existing recording constructs successfully (the recording
constructor), the batch loop never fails: it returns exactly one
participant per triple whose sample file exists, in order, and one
missing-file log line per triple whose sample file does not. -/
theorem rpbLoop_filter_characterization (ett : String) (fe : String → Bool)
    (datadir : String) (rps : Option (Nat → Rat)) :
    ∀ zs : List (String × Nat × Int),
      rpbLoop ett fe recordingConstruct datadir rps zs
      = .ok { participants :=
                (zs.filter (fun z => fe (batch_allfile ett datadir z.1))).map
                  (fun z => { recName := z.1, pid := z.2.1
                              log_time_offset := z.2.2
                              rpsdata := rps.map (fun f => f z.2.1) })
              log :=
                (zs.filter (fun z => !fe (batch_allfile ett datadir z.1))).map
                  (fun z => missing_file_log z.2.1) } := by
  intro zs
  induction zs with
  | nil => rfl
  | cons z rest ih =>
    obtain ⟨rec, pid, off⟩ := z
    simp only [rpbLoop, recordingConstruct]
    by_cases hfe : fe (batch_allfile ett datadir rec) = true
    · rw [if_pos hfe, ih]
      simp [Except.map, List.filter_cons, hfe]
    · rw [if_neg hfe, ih]
      simp only [Bool.not_eq_true] at hfe
      simp [Except.map, List.filter_cons, hfe]

/-- C8: for every recording in the batch whose sample data file does not
exist, `read_participants_Basic` produces no participant (the participants
are exactly those recordings whose file exists, in order) and records one
missing-file log line per skipped recording; the batch itself returns
successfully whenever the individual constructions do. -/
theorem C8_missing_file_logged_and_skipped (ett : String)
    (fe : String → Bool) (datadir : String)
    (user_list : List String) (pids : List Nat) (offs : List Int)
    (rps : Option (Nat → Rat)) :
    read_participants_Basic ett fe recordingConstruct datadir user_list
      pids (some offs) rps
    = .ok { participants :=
              ((user_list.zip (pids.zip offs)).filter
                  (fun z => fe (batch_allfile ett datadir z.1))).map
                (fun z => { recName := z.1, pid := z.2.1
                            log_time_offset := z.2.2
                            rpsdata := rps.map (fun f => f z.2.1) })
            log :=
              ((user_list.zip (pids.zip offs)).filter
                  (fun z => !fe (batch_allfile ett datadir z.1))).map
                (fun z => missing_file_log z.2.1) } :=
  rpbLoop_filter_characterization ett fe datadir rps
    (user_list.zip (pids.zip offs))

/-! ## Claim C2: the default log-time offset -/

/-- Every participant the batch loop produces with the recording constructor
carries the offset of one of the zipped input triples. -/
theorem rpbLoop_offset_mem (ett : String) (fe : String → Bool)
    (datadir : String) (rps : Option (Nat → Rat)) :
    ∀ (zs : List (String × Nat × Int)) (b : Batch),
      rpbLoop ett fe recordingConstruct datadir rps zs = .ok b →
      ∀ p ∈ b.participants, ∃ z ∈ zs, p.log_time_offset = z.2.2 := by
  intro zs
  induction zs with
  | nil =>
    intro b h p hp
    simp only [rpbLoop] at h
    cases h
    simp at hp
  | cons z rest ih =>
    intro b h p hp
    obtain ⟨rec, pid, off⟩ := z
    simp only [rpbLoop, recordingConstruct] at h
    by_cases hfe : fe (batch_allfile ett datadir rec) = true
    · rw [if_pos hfe] at h
      cases hrec : rpbLoop ett fe recordingConstruct datadir rps rest with
      | error e => rw [hrec] at h; exact absurd h (by simp [Except.map])
      | ok b2 =>
        rw [hrec] at h
        simp only [Except.map, Except.ok.injEq] at h
        subst h
        rcases List.mem_cons.mp hp with hp | hp
        · subst hp
          exact ⟨(rec, pid, off), List.mem_cons_self _ _, rfl⟩
        · obtain ⟨z2, hz2, hoff⟩ := ih b2 hrec p hp
          exact ⟨z2, List.mem_cons_of_mem _ hz2, hoff⟩
    · rw [if_neg hfe] at h
      cases hrec : rpbLoop ett fe recordingConstruct datadir rps rest with
      | error e => rw [hrec] at h; exact absurd h (by simp [Except.map])
      | ok b2 =>
        rw [hrec] at h
        simp only [Except.map, Except.ok.injEq] at h
        subst h
        obtain ⟨z2, hz2, hoff⟩ := ih b2 hrec p hp
        exact ⟨z2, List.mem_cons_of_mem _ hz2, hoff⟩

/-- C2: when `read_participants_Basic` runs with `log_time_offsets = None`,
the default `[1] * len(pids)` (one second per recording, per the source
comment) is used, so every constructed participant carries a log-time offset
of 1000 ms. -/
theorem C2_default_offset_1000ms (fe : String → Bool) (datadir : String)
    (user_list : List String) (pids : List Nat) (rps : Option (Nat → Rat))
    (b : Batch)
    (h : read_participants_Basic "TobiiV2" fe recordingConstruct datadir
          user_list pids none rps = .ok b)
    (p : BP) (hp : p ∈ b.participants) :
    log_time_offset_ms p.log_time_offset = 1000 := by
  simp only [read_participants_Basic, Option.getD] at h
  obtain ⟨z, hz, hoff⟩ := rpbLoop_offset_mem _ _ _ _ _ b h p hp
  obtain ⟨r, pd, off⟩ := z
  have h2 : (pd, off) ∈ pids.zip (List.replicate pids.length 1) :=
    (List.of_mem_zip hz).2
  have h3 : off ∈ List.replicate pids.length (1 : Int) :=
    (List.of_mem_zip h2).2
  have h4 : off = 1 := List.eq_of_mem_replicate h3
  rw [hoff]
  simp only [h4, log_time_offset_ms]
  rfl

/-- Witness for C2 at a concrete input. -/
theorem C2_default_offset_1000ms_witness :
    read_participants_Basic "TobiiV2" (fun _ => true) recordingConstruct
      "data" ["61"] [61] none none = .ok c2batch
    ∧ c2bp ∈ c2batch.participants
    ∧ log_time_offset_ms c2bp.log_time_offset = 1000 :=
  ⟨rfl, by decide,
   C2_default_offset_1000ms (fun _ => true) "data" ["61"] [61] none c2batch
     rfl c2bp (by decide)⟩

/-! ## Claim C3: sample validity and pupil size -/

/-- C3 as stated is false on the code: `read_all_data` hardcodes the
validity flag to True (the per-eye validity test of the original code is
commented out at `TobiiV2Recording.py:50`) and never reads the per-eye
pupil columns (lines 40-41).  On a row whose validity codes are both 4 --
so neither eye meets the threshold -- the Datapoint is still valid, and
although the pupil cells hold 2 and 4 (average 3), the stored pupil size is
the no-eye sentinel -1. -/
theorem C3_counterexample :
    (read_all_data [c3row]).map Datapoint.is_valid = [true]
    ∧ ¬ (c3row.validityLeft < 2 ∨ c3row.validityRight < 2)
    ∧ (read_all_data [c3row]).map Datapoint.pupilsize = [-1]
    ∧ get_pupil_size c3row.pupilLeft c3row.pupilRight = 3
    ∧ (-1 : Rat) ≠ 3 := by
  refine ⟨rfl, by decide, rfl, ?_, by decide⟩
  show get_pupil_size (some 2) (some 4) = 3
  unfold get_pupil_size
  norm_num

/-- Every Datapoint the `read_all_data` loop produces is valid with the
sentinel pupil size, whatever the threaded loop variables are. -/
theorem readAllDataLoop_valid_pupil :
    ∀ (rows : List AllDataRow) (lpl lpr : Option Rat) (lt : Int)
      (dp : Datapoint), dp ∈ readAllDataLoop lpl lpr lt rows →
      dp.is_valid = true ∧ dp.pupilsize = -1 := by
  intro rows
  induction rows with
  | nil => intro lpl lpr lt dp h; simp [readAllDataLoop] at h
  | cons row rest ih =>
    intro lpl lpr lt dp h
    simp only [readAllDataLoop] at h
    rcases List.mem_cons.mp h with h | h
    · subst h; exact ⟨rfl, rfl⟩
    · exact ih _ _ _ dp h

/-- C3 amended: every Datapoint parsed by `read_all_data` has its validity
flag true regardless of the per-eye validity codes, and its pupil size is
the no-eye sentinel -1, because the per-eye pupil and validity columns are
not read. -/
theorem C3_amended_always_valid_sentinel_pupil (rows : List AllDataRow)
    (dp : Datapoint) (h : dp ∈ read_all_data rows) :
    dp.is_valid = true ∧ dp.pupilsize = -1 :=
  readAllDataLoop_valid_pupil rows none none (-1) dp h

/-- Witness for the amended C3 at a concrete input. -/
theorem C3_amended_always_valid_sentinel_pupil_witness :
    c3dp ∈ read_all_data [c3row]
    ∧ (c3dp.is_valid = true ∧ c3dp.pupilsize = -1) :=
  ⟨by decide,
   C3_amended_always_valid_sentinel_pupil [c3row] c3dp (by decide)⟩

/-! ## Claim C7: the whole-recording scene -/

/-- The comparison `segLE` is transitive. -/
theorem segLE_trans : ∀ a b c : Seg, segLE a b = true → segLE b c = true →
    segLE a c = true := by
  intro a b c hab hbc
  simp only [segLE, decide_eq_true_eq] at hab hbc ⊢
  omega

/-- The comparison `segLE` is total. -/
theorem segLE_total : ∀ a b : Seg, (segLE a b || segLE b a) = true := by
  intro a b
  simp only [segLE, Bool.or_eq_true, decide_eq_true_eq]
  omega

/-- Stability of the Python `sorted` model: elements with any fixed start
time appear in the sorted list exactly as they appear in the input. -/
theorem mergeSort_segLE_filter_start (l : List Seg) (t : Int) :
    (l.mergeSort segLE).filter (fun s => s.start = t)
      = l.filter (fun s => s.start = t) := by
  have hpw : (l.filter (fun s => s.start = t)).Pairwise
      (fun a b => segLE a b = true) := by
    apply List.pairwise_of_forall_mem_list
    intro a ha b hb
    have ha2 := List.of_mem_filter ha
    have hb2 := List.of_mem_filter hb
    simp only [decide_eq_true_eq] at ha2 hb2
    simp only [segLE, decide_eq_true_eq]
    omega
  have hsub : (l.filter (fun s => s.start = t)).Sublist (l.mergeSort segLE) :=
    List.sublist_mergeSort segLE_trans segLE_total hpw (List.filter_sublist l)
  have hsub2 := hsub.filter (fun s => decide (s.start = t))
  have hself : List.filter (fun s => decide (s.start = t))
      (List.filter (fun s => decide (s.start = t)) l)
      = List.filter (fun s => decide (s.start = t)) l := by
    apply List.filter_eq_self.mpr
    intro a ha
    have := List.of_mem_filter ha
    simpa using this
  rw [hself] at hsub2
  have hlen : (l.filter (fun s => s.start = t)).length
      = ((l.mergeSort segLE).filter (fun s => s.start = t)).length :=
    (((List.mergeSort_perm l segLE).filter
        (fun s => decide (s.start = t))).length_eq).symm
  exact (hsub2.eq_of_length hlen).symm

/-- C7: for every successful `BasicParticipant` construction, the synthetic
whole-recording scene is the first element of the scene list and its
segment list is the parser's segment list sorted by start timestamp with a
stable sort: it is sorted, it is a permutation of the input, and the
segments with any fixed start timestamp keep their original order. -/
theorem C7_whole_scene_stable_sorted_first (pid ett : String)
    (pr : List String × Nat) (segments : List Seg) (scenes : List Scene)
    (p : BPInit)
    (h : basicParticipant_init pid ett pr (segments, scenes) = .ok p) :
    p.scenes = p.whole_scene :: scenes
    ∧ p.whole_scene.segments.Pairwise (fun a b => a.start ≤ b.start)
    ∧ p.whole_scene.segments.Perm segments
    ∧ ∀ t : Int, p.whole_scene.segments.filter (fun s => s.start = t)
        = segments.filter (fun s => s.start = t) := by
  unfold basicParticipant_init at h
  split at h
  · dsimp only at h
    by_cases hn : pr.2 = 0
    · rw [if_pos hn] at h
      exact absurd h (by simp)
    · rw [if_neg hn] at h
      simp only [Except.ok.injEq] at h
      subst h
      refine ⟨rfl, ?_, List.mergeSort_perm segments segLE,
        fun t => mergeSort_segLE_filter_start segments t⟩
      exact (List.sorted_mergeSort segLE_trans segLE_total segments).imp
        (by intro a b hab; simpa [segLE, decide_eq_true_eq] using hab)
  · exact absurd h (by simp)

/-- Witness for C7 at a concrete input. -/
theorem C7_whole_scene_stable_sorted_first_witness :
    basicParticipant_init "P1" "TobiiV2" (["s"], 1) ([c7seg], [c7scene])
      = .ok c7expected
    ∧ (c7expected.scenes = c7expected.whole_scene :: [c7scene]
       ∧ c7expected.whole_scene.segments.Pairwise
           (fun a b => a.start ≤ b.start)
       ∧ c7expected.whole_scene.segments.Perm [c7seg]
       ∧ ∀ t : Int, c7expected.whole_scene.segments.filter
             (fun s => s.start = t)
           = [c7seg].filter (fun s => s.start = t)) :=
  have h : basicParticipant_init "P1" "TobiiV2" (["s"], 1)
      ([c7seg], [c7scene]) = .ok c7expected := by
    simp [basicParticipant_init, List.mergeSort_singleton, c7expected,
      c7seg, c7scene]
  ⟨h, C7_whole_scene_stable_sorted_first "P1" "TobiiV2" (["s"], 1) [c7seg]
    [c7scene] c7expected h⟩

/-! ## Claim C9: saccade quality lies in the unit interval -/

/-- The loop invariant of `read_saccade_data`: every saccade emitted so far
has quality in the unit interval, and while a window is open its
valid-sample counter never exceeds its total-sample counter. -/
def SacInv (st : SacState) : Prop :=
  (∀ s ∈ st.all_saccade, 0 ≤ s.saccadequality ∧ s.saccadequality ≤ 1)
  ∧ (st.in_saccade = true → st.nb_valid_sample ≤ st.nb_sample)

/-- The trailing gaze update never touches the saccade accumulator. -/
theorem updateLastGaze_all_saccade (st : SacState) (row : SacRow) :
    (updateLastGaze st row).all_saccade = st.all_saccade := by
  unfold updateLastGaze
  split
  · rfl
  · split
    · rfl
    · rfl

/-- The trailing gaze update preserves the loop invariant. -/
theorem updateLastGaze_inv (st : SacState) (row : SacRow) (h : SacInv st) :
    SacInv (updateLastGaze st row) := by
  unfold updateLastGaze
  split
  · exact h
  · split
    · exact h
    · exact h

/-- Under the open-window counter invariant, the closing quality ratio lies
in the unit interval. -/
theorem closeRate_bounds (st : SacState) (row : SacRow)
    (h : st.nb_valid_sample ≤ st.nb_sample) :
    0 ≤ closeRate st row ∧ closeRate st row ≤ 1 := by
  have hcv : closeValidCount st row ≤ st.nb_sample + 1 := by
    unfold closeValidCount
    split <;> omega
  unfold closeRate
  rw [Rat.mkRat_eq_div]
  constructor
  · positivity
  · rw [div_le_one (by positivity)]
    exact_mod_cast hcv

/-- One branch step preserves the loop invariant. -/
theorem sacBranch_inv (threshold : Rat) (st : SacState) (row : SacRow)
    (st1 : SacState) (h : sacBranch threshold st row = .ok st1)
    (hinv : SacInv st) : SacInv st1 := by
  obtain ⟨hq, hcnt⟩ := hinv
  unfold sacBranch at h
  split at h
  · -- in_fixation branch
    split at h
    · cases h
      exact ⟨hq, hcnt⟩
    · split at h
      · -- opening a new window
        cases h
        refine ⟨hq, fun _ => ?_⟩
        dsimp only
        split <;> split <;> omega
      · cases h
        exact ⟨hq, hcnt⟩
  · split at h
    · -- in_saccade branch
      rename_i hsac
      split at h
      · -- closing boundary row
        dsimp only at h
        split at h
        · -- quality above threshold: emit unless the duration is zero
          split at h
          · exact absurd h (by simp)
          · split at h
            · exact absurd h (by simp)
            · cases h
              refine ⟨?_, fun hfalse => by simp at hfalse⟩
              intro s hs
              rcases List.mem_append.mp hs with hs | hs
              · exact hq s hs
              · rcases List.mem_singleton.mp hs with rfl
                exact closeRate_bounds st row (hcnt hsac)
        · -- quality below threshold: drop the window
          cases h
          exact ⟨hq, fun hfalse => by simp at hfalse⟩
      · split at h
        · -- continuing saccade row
          cases h
          refine ⟨hq, fun _ => ?_⟩
          dsimp only
          have := hcnt hsac
          split <;> omega
        · -- unclassified row inside a window
          cases h
          refine ⟨hq, fun _ => ?_⟩
          have := hcnt hsac
          dsimp only
          omega
    · -- waiting for the first fixation
      split at h
      · cases h
        exact ⟨hq, hcnt⟩
      · cases h
        exact ⟨hq, hcnt⟩

/-- One full loop step preserves the loop invariant. -/
theorem sacStep_inv (threshold : Rat) (st : SacState) (row : SacRow)
    (st1 : SacState) (h : sacStep threshold st row = .ok st1)
    (hinv : SacInv st) : SacInv st1 := by
  unfold sacStep at h
  split at h
  · cases hb : sacBranch threshold st row with
    | error e => rw [hb] at h; exact absurd h (by simp [Except.map])
    | ok st2 =>
      rw [hb] at h
      simp only [Except.map, Except.ok.injEq] at h
      subst h
      exact updateLastGaze_inv st2 row (sacBranch_inv threshold st row st2 hb hinv)
  · cases h
    exact hinv

/-- The loop preserves the invariant across any row list. -/
theorem readSaccadeLoop_inv (threshold : Rat) :
    ∀ (rows : List SacRow) (st stf : SacState),
      readSaccadeLoop threshold st rows = .ok stf → SacInv st → SacInv stf := by
  intro rows
  induction rows with
  | nil =>
    intro st stf h hi
    simp only [readSaccadeLoop] at h
    cases h
    exact hi
  | cons row rest ih =>
    intro st stf h hi
    simp only [readSaccadeLoop] at h
    cases hstep : sacStep threshold st row with
    | error e => rw [hstep] at h; exact absurd h (by simp)
    | ok st1 =>
      rw [hstep] at h
      exact ih st1 stf h (sacStep_inv threshold st row st1 hstep hi)

/-- C9: every saccade emitted by `read_saccade_data` has a quality score in
the unit interval, on any input stream and for any threshold: the
valid-sample counter never exceeds the total-sample counter at the moment a
window is closed. -/
theorem C9_quality_in_unit_interval (threshold : Rat) (rows : List SacRow)
    (sacs : List Saccade) (h : read_saccade_data threshold rows = .ok sacs)
    (s : Saccade) (hs : s ∈ sacs) :
    0 ≤ s.saccadequality ∧ s.saccadequality ≤ 1 := by
  unfold read_saccade_data at h
  cases hl : readSaccadeLoop threshold sacInit rows with
  | error e => rw [hl] at h; exact absurd h (by simp [Except.map])
  | ok stf =>
    rw [hl] at h
    simp only [Except.map, Except.ok.injEq] at h
    subst h
    have hinit : SacInv sacInit :=
      ⟨fun s hs => absurd hs (by simp [sacInit]), fun _ => le_refl 0⟩
    exact (readSaccadeLoop_inv threshold rows sacInit stf hl hinit).1 s hs

/-- Witness for C9 at a concrete input. -/
theorem C9_quality_in_unit_interval_witness :
    read_saccade_data (mkRat 1 2) c9rows = .ok [c9sac]
    ∧ c9sac ∈ [c9sac]
    ∧ (0 ≤ c9sac.saccadequality ∧ c9sac.saccadequality ≤ 1) :=
  ⟨rfl, by decide,
   C9_quality_in_unit_interval (mkRat 1 2) c9rows [c9sac] rfl c9sac
     (by decide)⟩

/-! ## Claim C4: a window is emitted exactly when its quality reaches the
threshold -/

/-- C4: when a saccade window is closed by a Fixation-classified processed
row, the closing step appends one Saccade exactly when the window quality
ratio reaches the configured threshold; a window below the threshold is
dropped with no error and no appended Saccade. -/
theorem C4_emit_iff_quality_threshold (threshold : Rat) (st : SacState)
    (row : SacRow)
    (hfix : st.in_fixation = false) (hsac : st.in_saccade = true)
    (hproc : rowProcessed row = true)
    (hft : row.gazeEventType = "Fixation")
    (hvect : closeVect st row ≠ []) :
    (closeRate st row < threshold →
      ∃ st1, sacStep threshold st row = .ok st1
        ∧ st1.all_saccade = st.all_saccade)
    ∧ ∀ st1, sacStep threshold st row = .ok st1 →
        (st1.all_saccade.length = st.all_saccade.length + 1
          ↔ threshold ≤ closeRate st row) := by
  unfold sacStep
  rw [if_pos hproc]
  unfold sacBranch
  rw [if_neg (by simp [hfix]), if_pos (by simp [hsac]),
    if_pos (by simp [hft])]
  dsimp only
  rcases lt_or_le (closeRate st row) threshold with hlt | hge
  · rw [if_neg (not_le.mpr hlt)]
    constructor
    · intro _
      refine ⟨_, rfl, ?_⟩
      rw [updateLastGaze_all_saccade]
    · intro st1 h1
      simp only [Except.map, Except.ok.injEq] at h1
      subst h1
      rw [updateLastGaze_all_saccade]
      constructor
      · intro habs
        exact absurd habs (by dsimp only; omega)
      · intro habs
        exact absurd habs (not_le.mpr hlt)
  · rw [if_pos hge]
    cases hcv : closeVect st row with
    | nil => exact absurd hcv hvect
    | cons v0 vrest =>
      dsimp only
      by_cases hdur : row.recordingTimestamp - v0.1 = 0
      · rw [if_pos hdur]
        constructor
        · intro hlt2
          exact absurd hge (not_le.mpr hlt2)
        · intro st1 h1
          exact absurd h1 (by simp [Except.map])
      · rw [if_neg hdur]
        constructor
        · intro hlt2
          exact absurd hge (not_le.mpr hlt2)
        · intro st1 h1
          simp only [Except.map, Except.ok.injEq] at h1
          subst h1
          rw [updateLastGaze_all_saccade]
          dsimp only
          simp only [List.length_append, List.length_singleton]
          exact iff_of_true (by trivial) hge

/-- Witness for C4 at a concrete input: 1 valid sample of 4 against
threshold 3/5 yields no Saccade and no error. -/
theorem C4_emit_iff_quality_threshold_witness :
    c4state.in_fixation = false ∧ c4state.in_saccade = true
    ∧ rowProcessed c4row = true ∧ c4row.gazeEventType = "Fixation"
    ∧ closeVect c4state c4row ≠ []
    ∧ ((closeRate c4state c4row < mkRat 3 5 →
        ∃ st1, sacStep (mkRat 3 5) c4state c4row = .ok st1
          ∧ st1.all_saccade = c4state.all_saccade)
      ∧ ∀ st1, sacStep (mkRat 3 5) c4state c4row = .ok st1 →
          (st1.all_saccade.length = c4state.all_saccade.length + 1
            ↔ mkRat 3 5 ≤ closeRate c4state c4row)) :=
  ⟨rfl, rfl, rfl, rfl, by decide,
   C4_emit_iff_quality_threshold (mkRat 3 5) c4state c4row rfl rfl rfl rfl
     (by decide)⟩

/-! ## Claim C1 amended: the five-sample stream, general form -/

/-- C1 amended: on every processed stream classified Fixation, Fixation,
Saccade, Saccade, Fixation with valid eyes and gaze coordinates throughout,
`read_saccade_data` returns exactly one Saccade of quality 1 whose duration
is the closing Fixation sample timestamp minus the timestamp of the last
pre-saccade fixation sample (the window start), provided the threshold is
at most 1 and that duration is nonzero. -/
theorem C1_amended_duration_from_window_start (threshold : Rat)
    (hts : threshold ≤ 1)
    (t1 t2 t3 t4 t5 x1 y1 x2 y2 x3 y3 x4 y4 x5 y5 k : Int)
    (vL1 vR1 vL2 vR2 vL3 vR3 vL4 vR4 vL5 vR5 : Int)
    (hv1 : vL1 < 2 ∨ vR1 < 2) (hv2 : vL2 < 2 ∨ vR2 < 2)
    (hv3 : vL3 < 2 ∨ vR3 < 2) (hv4 : vL4 < 2 ∨ vR4 < 2)
    (hv5 : vL5 < 2 ∨ vR5 < 2)
    (hdur : t5 - t2 ≠ 0) :
    read_saccade_data threshold
      [ mkSacRow "Fixation" t1 0 vL1 vR1 (some x1) (some y1) none none
      , mkSacRow "Fixation" t2 0 vL2 vR2 (some x2) (some y2) none none
      , mkSacRow "Saccade" t3 k vL3 vR3 (some x3) (some y3) none none
      , mkSacRow "Saccade" t4 k vL4 vR4 (some x4) (some y4) none none
      , mkSacRow "Fixation" t5 0 vL5 vR5 (some x5) (some y5) none none ]
      = .ok [{ saccadeindex := k
               timestamp := t2
               saccadeduration := t5 - t2
               saccadestartpointx := x2
               saccadestartpointy := y2
               saccadeendpointx := x5
               saccadeendpointy := y5
               saccadeacceleration := -1
               saccadequality := 1
               saccadevect := [(t2, x2, y2), (t3, x3, y3), (t4, x4, y4),
                               (t5, x5, y5)] }] := by
  have hb1 : (decide (vL1 < 2) || decide (vR1 < 2)) = true := by
    rcases hv1 with h | h <;> simp [h]
  have hb2 : (decide (vL2 < 2) || decide (vR2 < 2)) = true := by
    rcases hv2 with h | h <;> simp [h]
  have hb3 : (decide (vL3 < 2) || decide (vR3 < 2)) = true := by
    rcases hv3 with h | h <;> simp [h]
  have hb4 : (decide (vL4 < 2) || decide (vR4 < 2)) = true := by
    rcases hv4 with h | h <;> simp [h]
  have hb5 : (decide (vL5 < 2) || decide (vR5 < 2)) = true := by
    rcases hv5 with h | h <;> simp [h]
  have h44 : (mkRat 4 4 : Rat) = 1 := by decide
  simp [read_saccade_data, readSaccadeLoop, sacStep, sacBranch,
    updateLastGaze, rowProcessed, rowGazeValid, rowFixPoint, rowGazeCoord,
    rowFixCoord, closeVect, closeValidCount, closeRate, sacInit, mkSacRow,
    Except.map, hb1, hb2, hb3, hb4, hb5, h44, hts, hdur, List.getLastD]

/-- Witness for the amended C1 at a concrete input. -/
theorem C1_amended_duration_from_window_start_witness :
    (mkRat 3 5 : Rat) ≤ 1 ∧ (40 - 10 : Int) ≠ 0
    ∧ read_saccade_data (mkRat 3 5)
        [ mkSacRow "Fixation" 0 0 0 0 (some 100) (some 110) none none
        , mkSacRow "Fixation" 10 0 0 0 (some 101) (some 111) none none
        , mkSacRow "Saccade" 20 7 0 0 (some 102) (some 112) none none
        , mkSacRow "Saccade" 30 7 0 0 (some 103) (some 113) none none
        , mkSacRow "Fixation" 40 0 0 0 (some 104) (some 114) none none ]
        = .ok [{ saccadeindex := 7
                 timestamp := 10
                 saccadeduration := 40 - 10
                 saccadestartpointx := 101
                 saccadestartpointy := 111
                 saccadeendpointx := 104
                 saccadeendpointy := 114
                 saccadeacceleration := -1
                 saccadequality := 1
                 saccadevect := [(10, 101, 111), (20, 102, 112),
                                 (30, 103, 113), (40, 104, 114)] }] :=
  ⟨by decide, by decide,
   C1_amended_duration_from_window_start (mkRat 3 5) (by decide)
     0 10 20 30 40 100 110 101 111 102 112 103 113 104 114 7
     0 0 0 0 0 0 0 0 0 0
     (Or.inl (by decide)) (Or.inl (by decide)) (Or.inl (by decide))
     (Or.inl (by decide)) (Or.inl (by decide)) (by decide)⟩

end EMDAT
